import Mathlib

/-!
Verification of the playlist generator in `playlist_generator.py`
(`spotify-auto-playlists`).  The generator's pure core — text classifiers,
filter predicates, the quota-constrained rejection-sampling loop, and the
description formatter — is embedded shallowly below.  External effects
(the Spotify search API, the artist-enrichment API, random seed choice and
the final `random.shuffle`) are modelled as oracle inputs: a run is driven
by a list of batches, each a candidate list plus an artist-enrichment map,
and the shuffle is an arbitrary permutation-producing function.
-/

namespace PlaylistGen

/-! ### Python string primitives

Lean core's `String.toLower` / `String.trim` are defined by well-founded
recursion on byte positions, which does not reduce under `decide`; the
list-based versions below compute the same strings.  Python's `str.lower`
and `str.strip` are Unicode-aware; `Char.toLower` / `Char.isWhitespace`
cover the ASCII range, which is all the filter keywords use. -/

/-- Python `s.lower()`. -/
def pyLower (s : String) : String := ⟨s.data.map Char.toLower⟩

/-- Python `s.strip()`. -/
def pyStrip (s : String) : String :=
  ⟨((s.data.dropWhile Char.isWhitespace).reverse.dropWhile Char.isWhitespace).reverse⟩

/-- `listStartsWith pat l = true` iff `pat` is a prefix of `l`. -/
def listStartsWith : List Char → List Char → Bool
  | [], _ => true
  | _ :: _, [] => false
  | p :: ps, c :: cs => p == c && listStartsWith ps cs

/-- `strContainsAux pat l = true` iff `pat` occurs contiguously in `l`. -/
def strContainsAux (pat : List Char) : List Char → Bool
  | [] => pat.isEmpty
  | c :: cs => listStartsWith pat (c :: cs) || strContainsAux pat cs

/-- Python `pat in s` substring test. -/
def strContains (s pat : String) : Bool := strContainsAux pat.data s.data

/-! ### USER CONFIG (playlist_generator.py lines 39-57)

`HEBREW_PERCENT = 0.30` and `MAX_INDIAN_PERCENT = 0.06` are Python floats;
the double products `50 * 0.30`, `50 * 0.06` and `0.30 * 100` are exactly
15.0, 3.0 and 30.0, so Python's `int(...)` truncation agrees with the exact
rational arithmetic below (`Nat` division floors, and all three quotients
are exact or truncate the same way). -/

def TRACK_COUNT : Nat := 50

def MAX_SONGS_PER_ARTIST : Nat := 3

def FILTER_LIVE : Bool := true

def FILTER_REMIX : Bool := true

def FILTER_KARAOKE : Bool := true

def KNOWN_MIN_TRACK_POPULARITY : Nat := 55

def FAMOUS_MIN_TRACK_POPULARITY : Nat := 70

/-- `hebrew_needed = int(TRACK_COUNT * HEBREW_PERCENT)` with
`HEBREW_PERCENT = 0.30 = 3/10` (line 223). -/
def hebrew_needed : Nat := TRACK_COUNT * 3 / 10

/-- `global_needed = TRACK_COUNT - hebrew_needed` (line 224). -/
def global_needed : Nat := TRACK_COUNT - hebrew_needed

/-- `max_indian = int(TRACK_COUNT * MAX_INDIAN_PERCENT)` with
`MAX_INDIAN_PERCENT = 0.06 = 6/100` (line 235). -/
def max_indian : Nat := TRACK_COUNT * 6 / 100

/-- `int(HEBREW_PERCENT * 100)` as used in the description (line 370). -/
def hebrew_percent_int : Nat := 3 * 100 / 10

/-! ### Text classifiers (lines 109-169) -/

/-- `is_hebrew_text` (line 109): any char in the Hebrew block U+0590..U+05FF. -/
def is_hebrew_text (text : String) : Bool :=
  text.data.any (fun ch => decide ('\u0590' ≤ ch) && decide (ch ≤ '\u05FF'))

/-- One entry of a track's `artists` list: `{"id": ..., "name": ...}`.
`id` may be missing (`track["artists"][0].get("id")` → `None`), modelled as
`none`; `name` is read with `a.get("name", "")`, modelled as the resulting
string. -/
structure TrackArtist where
  id : Option String
  name : String
deriving DecidableEq, Repr

/-- A candidate track as consumed by the generator.  `uri`, `name` and
`popularity` may be absent (`track.get(...)` → `None`); `album_name` stands
for `(track.get("album") or {}).get("name", "")` with `none` when the album
or its name is missing.  A `None` entry in a batch behaves exactly like a
track with `artists = []` (both are skipped with no state change), so batch
entries are modelled as `Track` records. -/
structure Track where
  uri : Option String
  name : Option String
  artists : List TrackArtist
  album_name : Option String
  popularity : Option Nat
deriving DecidableEq, Repr

/-- Enriched artist info as built by `batch_fetch_artist_info` (lines
209-216): follower count, genre list, display name. -/
structure ArtistObj where
  followers : Nat
  genres : List String
  name : String
deriving DecidableEq, Repr

/-- The sentinel used when an artist id is absent from the enrichment map
(line 294): `{"followers": 999999, "genres": [], "name": ""}`. -/
def missingArtistObj : ArtistObj := ⟨999999, [], ""⟩

/-- The artist-enrichment mapping for one batch (artist id → `ArtistObj`). -/
abbrev AMap := List (String × ArtistObj)

/-- `artist_map.get(artist_id, {"followers": 999999, "genres": [], "name": ""})`
(line 294). -/
def artistObjFor (amap : AMap) (aid : String) : ArtistObj :=
  (amap.lookup aid).getD missingArtistObj

/-- `is_hebrew_track` (lines 113-122): Hebrew script in the track title,
the album title, or any artist name on the track. -/
def is_hebrew_track (t : Track) : Bool :=
  is_hebrew_text (t.name.getD "") ||
  is_hebrew_text (t.album_name.getD "") ||
  t.artists.any (fun a => is_hebrew_text a.name)

/-- `is_bad_version` (lines 125-133).  A `None` name cannot reach this
function from the generator (the title is already stripped and non-empty),
so the argument is a plain string. -/
def is_bad_version (name : String) : Bool :=
  let n := pyLower name
  if FILTER_LIVE && (strContains n " live" || strContains n "(live" || strContains n "session") then
    true
  else if FILTER_REMIX && (strContains n "remix" || strContains n " mix" || strContains n "(mix") then
    true
  else if FILTER_KARAOKE && (strContains n "karaoke" || strContains n "instrumental") then
    true
  else
    false

/-- `INDIAN_GENRE_KEYWORDS` (lines 137-141); a Python set used only for
membership-style iteration, modelled as a list. -/
def INDIAN_GENRE_KEYWORDS : List String :=
  ["bollywood", "desi", "indian", "filmi", "tollywood",
   "punjabi", "bhangra", "tamil", "telugu", "malayalam",
   "kannada", "bengali", "gujarati", "hindi", "urdu"]

/-- `has_indic_script` (lines 144-157): any char in one of eight Indic
Unicode blocks. -/
def has_indic_script (text : String) : Bool :=
  text.data.any (fun ch =>
    (decide ('\u0900' ≤ ch) && decide (ch ≤ '\u097F')) ||
    (decide ('\u0980' ≤ ch) && decide (ch ≤ '\u09FF')) ||
    (decide ('\u0A00' ≤ ch) && decide (ch ≤ '\u0A7F')) ||
    (decide ('\u0A80' ≤ ch) && decide (ch ≤ '\u0AFF')) ||
    (decide ('\u0B80' ≤ ch) && decide (ch ≤ '\u0BFF')) ||
    (decide ('\u0C00' ≤ ch) && decide (ch ≤ '\u0C7F')) ||
    (decide ('\u0C80' ≤ ch) && decide (ch ≤ '\u0CFF')) ||
    (decide ('\u0D00' ≤ ch) && decide (ch ≤ '\u0D7F')))

/-- `is_indian_track` (lines 160-169): Indic script in the track title,
album title or enriched-artist name, or an Indian genre keyword in the
artist's (joined, lowercased) genre tags. -/
def is_indian_track (t : Track) (artist_obj : ArtistObj) : Bool :=
  has_indic_script (t.name.getD "") ||
  has_indic_script (t.album_name.getD "") ||
  has_indic_script artist_obj.name ||
  (let genres := pyLower (String.intercalate " " artist_obj.genres)
   INDIAN_GENRE_KEYWORDS.any (fun k => strContains genres k))

/-! ### Tier-derived configuration (lines 238-245) -/

/-- Python truthiness of an optional integer: `None` and `0` are falsy. -/
def pyTruthyNat (o : Option Nat) : Bool :=
  match o with
  | none => false
  | some n => decide (n ≠ 0)

/-- `mainstream_mode = (min_followers is not None and min_followers >= 50000)`
(line 239). -/
def mainstream_mode (min_followers : Option Nat) : Bool :=
  min_followers.any (fun m => decide (50000 ≤ m))

/-- `min_popularity` as derived on lines 243-245:
`FAMOUS_MIN_TRACK_POPULARITY if (min_followers and min_followers >= 500000)
else KNOWN_MIN_TRACK_POPULARITY`, only in mainstream mode. -/
def tierMinPopularity (min_followers : Option Nat) : Option Nat :=
  if mainstream_mode min_followers then
    some (if pyTruthyNat min_followers && decide (500000 ≤ min_followers.getD 0) then
            FAMOUS_MIN_TRACK_POPULARITY
          else KNOWN_MIN_TRACK_POPULARITY)
  else
    none

/-- The follower-band test of lines 297-301, `true` when neither `continue`
fires: reject iff `max_followers is not None and followers > max_followers`
or `min_followers is not None and followers < min_followers`. -/
def passes_follower_band (max_followers min_followers : Option Nat) (followers : Nat) : Bool :=
  !(max_followers.any (fun m => decide (m < followers))) &&
  !(min_followers.any (fun m => decide (followers < m)))

/-! ### Generator state (lines 226-236) -/

/-- The mutable state of one `generate_tracks_for_playlist` run.  The
first six fields are the Python locals `hebrew_tracks`, `global_tracks`,
`artist_counts` (dict, modelled as an association list whose `lookup`
returns the most recent binding), `seen_uris` (set, modelled as a list
queried by membership), `seen_artist_title` (set) and `indian_count`.
`accepted` is a history variable absent from the source: it records each
accepted candidate together with its regional flag so that per-artist and
regional counts of the final output can be stated; the generator never
reads it. -/
structure GenState where
  hebrew_tracks : List String
  global_tracks : List String
  artist_counts : List (String × Nat)
  seen_uris : List String
  seen_artist_title : List (String × String)
  indian_count : Nat
  accepted : List (Track × Bool)
deriving DecidableEq, Repr

/-- The fresh state built on lines 226-236. -/
def initState : GenState := ⟨[], [], [], [], [], 0, []⟩

/-- `track.get("uri")` coerced through Python truthiness: `None` and `""`
are both rejected by `if not uri`, so the two collapse to `""`. -/
def trackUri (t : Track) : String := t.uri.getD ""

/-- `(track.get("name") or "").strip()` (line 266). -/
def trackTitle (t : Track) : String := pyStrip (t.name.getD "")

/-- `track["artists"][0].get("id")` coerced through Python truthiness
(`if not artist_id`), so `None` and `""` collapse to `""`; `""` also when
`artists` is empty (that case is rejected earlier). -/
def primaryArtistId (t : Track) : String :=
  ((t.artists.head?).bind TrackArtist.id).getD ""

/-- The per-candidate filter pipeline of lines 258-311 as one short-circuit
conjunction: `accepts = true` iff no `continue` fires for this candidate in
the current state, i.e. the candidate is accepted. -/
def accepts (max_followers min_followers : Option Nat) (amap : AMap)
    (st : GenState) (t : Track) : Bool :=
  match t.artists with
  | [] => false
  | a0 :: _ =>
    !(decide (t.uri.getD "" = "" ∨ t.uri.getD "" ∈ st.seen_uris)) &&
    !(decide (pyStrip (t.name.getD "") = "" ∨ is_bad_version (pyStrip (t.name.getD "")) = true)) &&
    !(decide (a0.id.getD "" = "")) &&
    !(decide (MAX_SONGS_PER_ARTIST ≤ (st.artist_counts.lookup (a0.id.getD "")).getD 0)) &&
    !(decide ((a0.id.getD "", pyLower (pyStrip (t.name.getD ""))) ∈ st.seen_artist_title)) &&
    !(decide (is_hebrew_track t = true ∧ hebrew_needed ≤ st.hebrew_tracks.length)) &&
    !(decide (is_hebrew_track t = false ∧ global_needed ≤ st.global_tracks.length)) &&
    !(decide (passes_follower_band max_followers min_followers
        (artistObjFor amap (a0.id.getD "")).followers = false)) &&
    !(decide ((tierMinPopularity min_followers).any
        (fun p => decide (t.popularity.getD 0 < p)) = true)) &&
    !(decide (is_indian_track t (artistObjFor amap (a0.id.getD "")) = true ∧
        max_indian ≤ st.indian_count))

/-- The state mutation of the ACCEPT block (lines 313-323):
both de-dup sets, the artist count, the regional count (when flagged) and
exactly one bucket are updated together. -/
def acceptUpdate (amap : AMap) (st : GenState) (t : Track) : GenState :=
  { hebrew_tracks :=
      if is_hebrew_track t then st.hebrew_tracks ++ [trackUri t] else st.hebrew_tracks
    global_tracks :=
      if is_hebrew_track t then st.global_tracks else st.global_tracks ++ [trackUri t]
    artist_counts :=
      (primaryArtistId t, (st.artist_counts.lookup (primaryArtistId t)).getD 0 + 1) ::
        st.artist_counts
    seen_uris := trackUri t :: st.seen_uris
    seen_artist_title := (primaryArtistId t, pyLower (trackTitle t)) :: st.seen_artist_title
    indian_count :=
      st.indian_count +
        (if is_indian_track t (artistObjFor amap (primaryArtistId t)) then 1 else 0)
    accepted :=
      st.accepted ++ [(t, is_indian_track t (artistObjFor amap (primaryArtistId t)))] }

/-- The body of `for track in batch` (lines 258-323) for one candidate:
either some filter fires a `continue` (state unchanged) or the candidate is
accepted and the state mutated. -/
def processTrack (max_followers min_followers : Option Nat) (amap : AMap)
    (st : GenState) (t : Track) : GenState :=
  match t.artists with
  | [] => st
  | a0 :: _ =>
    if t.uri.getD "" = "" ∨ t.uri.getD "" ∈ st.seen_uris then st
    else if pyStrip (t.name.getD "") = "" ∨ is_bad_version (pyStrip (t.name.getD "")) = true then st
    else if a0.id.getD "" = "" then st
    else if MAX_SONGS_PER_ARTIST ≤ (st.artist_counts.lookup (a0.id.getD "")).getD 0 then st
    else if (a0.id.getD "", pyLower (pyStrip (t.name.getD ""))) ∈ st.seen_artist_title then st
    else if is_hebrew_track t = true ∧ hebrew_needed ≤ st.hebrew_tracks.length then st
    else if is_hebrew_track t = false ∧ global_needed ≤ st.global_tracks.length then st
    else if passes_follower_band max_followers min_followers
        (artistObjFor amap (a0.id.getD "")).followers = false then st
    else if (tierMinPopularity min_followers).any
        (fun p => decide (t.popularity.getD 0 < p)) = true then st
    else if is_indian_track t (artistObjFor amap (a0.id.getD "")) = true ∧
        max_indian ≤ st.indian_count then st
    else acceptUpdate amap st t

/-- The `while` condition, negated: the loop runs while
`len(hebrew_tracks) < hebrew_needed or len(global_tracks) < global_needed`
(line 247) and the batch scan breaks once both quotas are met (line 325). -/
def loopDone (st : GenState) : Bool :=
  decide (hebrew_needed ≤ st.hebrew_tracks.length) &&
  decide (global_needed ≤ st.global_tracks.length)

/-- The `for track in batch` loop with its early `break` (lines 258-326).
A rejected candidate leaves the state unchanged, so checking the break
condition after every candidate is the same function as the source's check
after every acceptance. -/
def processBatch (max_followers min_followers : Option Nat) (amap : AMap) :
    GenState → List Track → GenState
  | st, [] => st
  | st, t :: ts =>
    let st' := processTrack max_followers min_followers amap st t
    if loopDone st' then st' else processBatch max_followers min_followers amap st' ts

/-- One search batch together with the artist-enrichment map fetched for it
(lines 251-256).  Batch contents, the map, and their number are oracle
inputs: they stand for the nondeterministic Spotify responses. -/
abbrev Batch := List Track × AMap

/-- The `while` loop of lines 247-326.  Each iteration consumes one oracle
batch (an empty batch models `if not batch: continue`); `none` means the
oracle ran out before both quotas were met, i.e. this run is not one of the
terminating runs. -/
def runLoop (max_followers min_followers : Option Nat) :
    List Batch → GenState → Option GenState
  | [], st => if loopDone st then some st else none
  | b :: rest, st =>
    if loopDone st then some st
    else runLoop max_followers min_followers rest
      (processBatch max_followers min_followers b.2 st b.1)

/-- `generate_tracks_for_playlist` (lines 222-330) over the batch oracle.
`shuffle` models `random.shuffle` (line 329): the caller supplies the
permutation the PRNG would produce. -/
def generate_tracks_for_playlist (shuffle : List String → List String)
    (max_followers min_followers : Option Nat) (batches : List Batch) :
    Option (List String) :=
  (runLoop max_followers min_followers batches initState).map
    (fun st => shuffle (st.hebrew_tracks ++ st.global_tracks))

/-! ### Tier table and description (lines 76-83 and 352-377) -/

/-- One follower band of the `PLAYLISTS` table. -/
structure TierBand where
  max : Option Nat
  min : Option Nat
deriving DecidableEq, Repr

/-- The `PLAYLISTS` table (lines 76-83). -/
def PLAYLISTS : List (String × TierBand) :=
  [("Random Songs (unknown artists)", ⟨some 200, some 0⟩),
   ("Random Songs (tiny artists)", ⟨some 1000, some 200⟩),
   ("Random Songs (small artists)", ⟨some 10000, some 1000⟩),
   ("Random Songs (medium artists)", ⟨some 50000, some 10000⟩),
   ("Random Songs (known artists)", ⟨some 500000, some 50000⟩),
   ("Random Songs (famous artists)", ⟨none, some 500000⟩)]

/-- The `('>' + str(min_f)) if min_f else ''` clause (line 367). -/
def followers_min_clause (min_f : Option Nat) : String :=
  if pyTruthyNat min_f then ">" ++ toString (min_f.getD 0) else ""

/-- The `' and ' if min_f and max_f else ''` clause (line 368). -/
def followers_and_clause (max_f min_f : Option Nat) : String :=
  if pyTruthyNat min_f && pyTruthyNat max_f then " and " else ""

/-- The `('<' + str(max_f)) if max_f else ''` clause (line 369). -/
def followers_max_clause (max_f : Option Nat) : String :=
  if pyTruthyNat max_f then "<" ++ toString (max_f.getD 0) else ""

/-- The description after the timestamp clause (lines 366-371). -/
def description_tail (max_f min_f : Option Nat) : String :=
  "Followers: " ++ followers_min_clause min_f ++ followers_and_clause max_f min_f ++
    followers_max_clause max_f ++ ". Hebrew % = " ++ toString hebrew_percent_int ++
    "%. Max " ++ toString MAX_SONGS_PER_ARTIST ++ " songs/artist."

/-- The full description string built in `process_playlist` (lines 364-372). -/
def playlist_description (timestamp : String) (max_f min_f : Option Nat) : String :=
  "Auto-updated at " ++ timestamp ++ ". " ++ description_tail max_f min_f

/-! ### Concrete runs used to instantiate the theorems below -/

/-- A Hebrew-titled candidate (title `א<i>`), distinct uri and artist per `i`. -/
def mkHebTrack (i : Nat) : Track :=
  { uri := some ("h" ++ toString i), name := some ("א" ++ toString i),
    artists := [{ id := some ("ah" ++ toString i), name := "n" }],
    album_name := some "", popularity := some 0 }

/-- A non-Hebrew candidate (title `s<i>`), distinct uri and artist per `i`. -/
def mkGlobTrack (i : Nat) : Track :=
  { uri := some ("g" ++ toString i), name := some ("s" ++ toString i),
    artists := [{ id := some ("ag" ++ toString i), name := "n" }],
    album_name := some "", popularity := some 0 }

/-- A batch of exactly 15 Hebrew and 35 non-Hebrew acceptable candidates. -/
def wTracks : List Track :=
  ((List.range 15).map mkHebTrack) ++ ((List.range 35).map mkGlobTrack)

/-- The state after processing `wTracks` from a fresh state with no follower
bounds; this run terminates with both quotas met. -/
def wSt : GenState := processBatch none none [] initState wTracks

/-- The (identity-shuffled) output of the `wTracks` run. -/
def wOut : List String := wSt.hebrew_tracks ++ wSt.global_tracks

/-- Like `mkHebTrack` but with `"xx"` as an additional featured artist. -/
def mkHebXTrack (i : Nat) : Track :=
  { uri := some ("h" ++ toString i), name := some ("א" ++ toString i),
    artists := [{ id := some ("ah" ++ toString i), name := "n" },
                { id := some "xx", name := "x" }],
    album_name := some "", popularity := some 0 }

/-- Like `mkGlobTrack` but with `"xx"` as an additional featured artist. -/
def mkGlobXTrack (i : Nat) : Track :=
  { uri := some ("g" ++ toString i), name := some ("s" ++ toString i),
    artists := [{ id := some ("ag" ++ toString i), name := "n" },
                { id := some "xx", name := "x" }],
    album_name := some "", popularity := some 0 }

/-- A full batch in which artist `"xx"` is featured on every candidate. -/
def cxTracks : List Track :=
  ((List.range 15).map mkHebXTrack) ++ ((List.range 35).map mkGlobXTrack)

/-- The terminating run over `cxTracks`. -/
def cxSt : GenState := processBatch none none [] initState cxTracks

/-- Number of accepted tracks on whose artist list `aid` appears anywhere
(primary or featured). -/
def artistAppearCount (aid : String) (acc : List (Track × Bool)) : Nat :=
  (acc.filter (fun r => r.1.artists.any (fun a => decide (a.id = some aid)))).length

/-- A candidate with an empty uri (falsy in Python, hence rejected). -/
def badUriTrack : Track :=
  { uri := some "", name := some "t", artists := [{ id := some "a1", name := "n" }],
    album_name := some "", popularity := some 0 }

/-- A candidate whose title carries a live marker. -/
def liveTrack : Track :=
  { uri := some "u1", name := some "Song (Live at Arena)",
    artists := [{ id := some "a1", name := "n" }],
    album_name := some "", popularity := some 0 }

/-- A low-popularity candidate. -/
def lowPopTrack : Track :=
  { uri := some "u2", name := some "t2", artists := [{ id := some "a2", name := "n" }],
    album_name := some "", popularity := some 10 }

/-- A state in which artist `"a9"` has already reached the per-artist cap. -/
def capSt : GenState := { initState with artist_counts := [("a9", 3)] }

/-- A candidate whose primary artist is the capped `"a9"`. -/
def capTrack : Track :=
  { uri := some "u9", name := some "t9", artists := [{ id := some "a9", name := "n" }],
    album_name := some "", popularity := some 0 }

/-! ### The accept/reject dichotomy of the candidate pipeline -/

theorem processTrack_of_reject (maxf minf : Option Nat) (amap : AMap) (st : GenState)
    (t : Track) (h : accepts maxf minf amap st t = false) :
    processTrack maxf minf amap st t = st := by
  unfold accepts at h
  unfold processTrack
  cases ha : t.artists with
  | nil => rfl
  | cons a0 rest =>
    rw [ha] at h
    dsimp only at h ⊢
    by_cases h1 : t.uri.getD "" = "" ∨ t.uri.getD "" ∈ st.seen_uris
    · rw [if_pos h1]
    rw [if_neg h1]
    by_cases h2 : pyStrip (t.name.getD "") = "" ∨
        is_bad_version (pyStrip (t.name.getD "")) = true
    · rw [if_pos h2]
    rw [if_neg h2]
    by_cases h3 : a0.id.getD "" = ""
    · rw [if_pos h3]
    rw [if_neg h3]
    by_cases h4 : MAX_SONGS_PER_ARTIST ≤ (st.artist_counts.lookup (a0.id.getD "")).getD 0
    · rw [if_pos h4]
    rw [if_neg h4]
    by_cases h5 : (a0.id.getD "", pyLower (pyStrip (t.name.getD ""))) ∈ st.seen_artist_title
    · rw [if_pos h5]
    rw [if_neg h5]
    by_cases h6 : is_hebrew_track t = true ∧ hebrew_needed ≤ st.hebrew_tracks.length
    · rw [if_pos h6]
    rw [if_neg h6]
    by_cases h7 : is_hebrew_track t = false ∧ global_needed ≤ st.global_tracks.length
    · rw [if_pos h7]
    rw [if_neg h7]
    by_cases h8 : passes_follower_band maxf minf
        (artistObjFor amap (a0.id.getD "")).followers = false
    · rw [if_pos h8]
    rw [if_neg h8]
    by_cases h9 : (tierMinPopularity minf).any
        (fun p => decide (t.popularity.getD 0 < p)) = true
    · rw [if_pos h9]
    rw [if_neg h9]
    by_cases h10 : is_indian_track t (artistObjFor amap (a0.id.getD "")) = true ∧
        max_indian ≤ st.indian_count
    · rw [if_pos h10]
    rw [if_neg h10]
    exfalso
    rw [decide_eq_false h1, decide_eq_false h2, decide_eq_false h3, decide_eq_false h4,
      decide_eq_false h5, decide_eq_false h6, decide_eq_false h7, decide_eq_false h8,
      decide_eq_false h9, decide_eq_false h10] at h
    simp at h

theorem processTrack_of_accept (maxf minf : Option Nat) (amap : AMap) (st : GenState)
    (t : Track) (h : accepts maxf minf amap st t = true) :
    processTrack maxf minf amap st t = acceptUpdate amap st t := by
  unfold accepts at h
  unfold processTrack
  cases ha : t.artists with
  | nil => rw [ha] at h; exact absurd h (by simp)
  | cons a0 rest =>
    rw [ha] at h
    dsimp only at h ⊢
    simp only [Bool.and_eq_true, Bool.not_eq_true', decide_eq_false_iff_not, and_assoc] at h
    obtain ⟨h1, h2, h3, h4, h5, h6, h7, h8, h9, h10⟩ := h
    rw [if_neg h1, if_neg h2, if_neg h3, if_neg h4, if_neg h5, if_neg h6, if_neg h7,
      if_neg h8, if_neg h9, if_neg h10]

theorem accepts_facts (maxf minf : Option Nat) (amap : AMap) (st : GenState) (t : Track)
    (h : accepts maxf minf amap st t = true) :
    trackUri t ≠ "" ∧
    trackUri t ∉ st.seen_uris ∧
    trackTitle t ≠ "" ∧
    is_bad_version (trackTitle t) = false ∧
    primaryArtistId t ≠ "" ∧
    (st.artist_counts.lookup (primaryArtistId t)).getD 0 < MAX_SONGS_PER_ARTIST ∧
    (primaryArtistId t, pyLower (trackTitle t)) ∉ st.seen_artist_title ∧
    (is_hebrew_track t = true → st.hebrew_tracks.length < hebrew_needed) ∧
    (is_hebrew_track t = false → st.global_tracks.length < global_needed) ∧
    passes_follower_band maxf minf (artistObjFor amap (primaryArtistId t)).followers = true ∧
    (tierMinPopularity minf).any (fun p => decide (t.popularity.getD 0 < p)) = false ∧
    (is_indian_track t (artistObjFor amap (primaryArtistId t)) = true →
      st.indian_count < max_indian) := by
  unfold accepts at h
  cases ha : t.artists with
  | nil => rw [ha] at h; exact absurd h (by simp)
  | cons a0 rest =>
    rw [ha] at h
    dsimp only at h
    simp only [Bool.and_eq_true, Bool.not_eq_true', decide_eq_false_iff_not, and_assoc] at h
    obtain ⟨h1, h2, h3, h4, h5, h6, h7, h8, h9, h10⟩ := h
    have hpid : primaryArtistId t = a0.id.getD "" := by
      simp [primaryArtistId, ha]
    have huri : trackUri t = t.uri.getD "" := rfl
    have htit : trackTitle t = pyStrip (t.name.getD "") := rfl
    rw [huri, htit, hpid]
    refine ⟨fun he => h1 (Or.inl he), fun hm => h1 (Or.inr hm),
      fun he => h2 (Or.inl he), ?_, h3, Nat.not_le.mp h4, h5,
      fun hbt => Nat.not_le.mp (fun hle => h6 ⟨hbt, hle⟩),
      fun hbf => Nat.not_le.mp (fun hle => h7 ⟨hbf, hle⟩),
      ?_, ?_, fun hf => Nat.not_le.mp (fun hle => h10 ⟨hf, hle⟩)⟩
    · have := fun hb => h2 (Or.inr hb)
      simpa using this
    · simpa using h8
    · simpa using h9

/-! ### Run invariant -/

/-- Number of accepted records whose track's primary artist id is `a`. -/
def primaryCount (acc : List (Track × Bool)) (a : String) : Nat :=
  (acc.filter (fun r => decide (primaryArtistId r.1 = a))).length

/-- Number of accepted records carrying the regional (Indian) flag. -/
def flaggedCount (acc : List (Track × Bool)) : Nat :=
  (acc.filter (fun r => r.2)).length

theorem primaryCount_append (acc : List (Track × Bool)) (r : Track × Bool) (a : String) :
    primaryCount (acc ++ [r]) a =
      primaryCount acc a + (if primaryArtistId r.1 = a then 1 else 0) := by
  simp only [primaryCount, List.filter_append, List.length_append]
  split_ifs with hp <;> simp [hp]

theorem flaggedCount_append (acc : List (Track × Bool)) (r : Track × Bool) :
    flaggedCount (acc ++ [r]) = flaggedCount acc + (if r.2 then 1 else 0) := by
  simp only [flaggedCount, List.filter_append, List.length_append]
  cases hr : r.2 <;> simp [hr]

/-- Everything that holds of every state a tier run can reach. -/
structure Inv (st : GenState) : Prop where
  heb_le : st.hebrew_tracks.length ≤ hebrew_needed
  glob_le : st.global_tracks.length ≤ global_needed
  nodup : (st.hebrew_tracks ++ st.global_tracks).Nodup
  sub_seen : ∀ u ∈ st.hebrew_tracks ++ st.global_tracks, u ∈ st.seen_uris
  counts : ∀ a, (st.artist_counts.lookup a).getD 0 = primaryCount st.accepted a
  counts_le : ∀ a, (st.artist_counts.lookup a).getD 0 ≤ MAX_SONGS_PER_ARTIST
  indian_eq : st.indian_count = flaggedCount st.accepted
  indian_le : st.indian_count ≤ max_indian

theorem inv_init : Inv initState := by
  constructor <;> simp [initState, primaryCount, flaggedCount, List.lookup]

theorem inv_processTrack (maxf minf : Option Nat) (amap : AMap) (st : GenState) (t : Track)
    (h : Inv st) : Inv (processTrack maxf minf amap st t) := by
  cases hacc : accepts maxf minf amap st t with
  | false => rw [processTrack_of_reject _ _ _ _ _ hacc]; exact h
  | true =>
    rw [processTrack_of_accept _ _ _ _ _ hacc]
    obtain ⟨-, hu2, -, -, -, hc, -, hhb, hgl, -, -, hind⟩ := accepts_facts _ _ _ _ _ hacc
    have hnotin : trackUri t ∉ st.hebrew_tracks ++ st.global_tracks :=
      fun hm => hu2 (h.sub_seen _ hm)
    constructor
    · by_cases hb : is_hebrew_track t = true
      · have := hhb hb
        simp only [acceptUpdate, hb, if_true, List.length_append, List.length_singleton]
        omega
      · simpa [acceptUpdate, hb] using h.heb_le
    · by_cases hb : is_hebrew_track t = true
      · simpa [acceptUpdate, hb] using h.glob_le
      · have := hgl (by simpa using hb)
        simp only [acceptUpdate, hb, Bool.false_eq_true, if_false, List.length_append,
          List.length_singleton]
        omega
    · by_cases hb : is_hebrew_track t = true
      · simp only [acceptUpdate, hb, if_true]
        rw [List.append_assoc, List.singleton_append]
        exact List.nodup_middle.mpr ((List.nodup_cons).mpr ⟨hnotin, h.nodup⟩)
      · simp only [acceptUpdate, hb, Bool.false_eq_true, if_false]
        rw [← List.append_assoc]
        refine List.Nodup.append h.nodup (List.nodup_singleton _) ?_
        intro x hx hx'
        rw [List.mem_singleton] at hx'
        exact hnotin (hx' ▸ hx)
    · intro u hu
      by_cases hb : is_hebrew_track t = true <;>
        simp only [acceptUpdate, hb, Bool.false_eq_true, if_true, if_false] at hu ⊢ <;>
        rw [List.mem_cons]
      · rcases List.mem_append.mp hu with hu' | hu'
        · rcases List.mem_append.mp hu' with hu'' | hu''
          · exact Or.inr (h.sub_seen _ (List.mem_append.mpr (Or.inl hu'')))
          · exact Or.inl (List.mem_singleton.mp hu'')
        · exact Or.inr (h.sub_seen _ (List.mem_append.mpr (Or.inr hu')))
      · rcases List.mem_append.mp hu with hu' | hu'
        · exact Or.inr (h.sub_seen _ (List.mem_append.mpr (Or.inl hu')))
        · rcases List.mem_append.mp hu' with hu'' | hu''
          · exact Or.inr (h.sub_seen _ (List.mem_append.mpr (Or.inr hu'')))
          · exact Or.inl (List.mem_singleton.mp hu'')
    · intro a
      simp only [acceptUpdate]
      rw [primaryCount_append]
      by_cases hEq : primaryArtistId t = a
      · subst hEq
        simp [List.lookup, h.counts (primaryArtistId t)]
      · have hbeq : (a == primaryArtistId t) = false := by
          simp [beq_eq_false_iff_ne]
          exact fun he => hEq he.symm
        simp [List.lookup, hbeq, h.counts a, hEq]
    · intro a
      simp only [acceptUpdate]
      by_cases hEq : primaryArtistId t = a
      · subst hEq
        simp only [List.lookup, beq_self_eq_true, Option.getD_some]
        omega
      · have hbeq : (a == primaryArtistId t) = false := by
          simp [beq_eq_false_iff_ne]
          exact fun he => hEq he.symm
        simp only [List.lookup, hbeq]
        exact h.counts_le a
    · simp only [acceptUpdate]
      rw [flaggedCount_append, h.indian_eq]
    · simp only [acceptUpdate]
      by_cases hf : is_indian_track t (artistObjFor amap (primaryArtistId t)) = true
      · have := hind hf
        simp only [hf, if_true]
        omega
      · simpa [hf] using h.indian_le

theorem inv_processBatch (maxf minf : Option Nat) (amap : AMap) :
    ∀ (ts : List Track) (st : GenState), Inv st →
      Inv (processBatch maxf minf amap st ts) := by
  intro ts
  induction ts with
  | nil => intro st h; simpa [processBatch] using h
  | cons t ts ih =>
    intro st h
    rw [processBatch]
    split
    · exact inv_processTrack _ _ _ _ _ h
    · exact ih _ (inv_processTrack _ _ _ _ _ h)

theorem runLoop_some (maxf minf : Option Nat) :
    ∀ (bs : List Batch) (st st' : GenState),
      runLoop maxf minf bs st = some st' → Inv st →
      Inv st' ∧ loopDone st' = true := by
  intro bs
  induction bs with
  | nil =>
    intro st st' h hInv
    rw [runLoop] at h
    split at h
    · cases h; exact ⟨hInv, by assumption⟩
    · exact absurd h (by simp)
  | cons b rest ih =>
    intro st st' h hInv
    rw [runLoop] at h
    split at h
    · cases h; exact ⟨hInv, by assumption⟩
    · exact ih _ _ h (inv_processBatch _ _ _ _ _ hInv)

theorem loopDone_lengths (st : GenState) (hInv : Inv st) (hd : loopDone st = true) :
    st.hebrew_tracks.length = hebrew_needed ∧
    st.global_tracks.length = global_needed := by
  simp only [loopDone, Bool.and_eq_true, decide_eq_true_eq] at hd
  exact ⟨Nat.le_antisymm hInv.heb_le hd.1, Nat.le_antisymm hInv.glob_le hd.2⟩

/-! ### The claims -/

/-- C5: the follower-band filter uses inclusive bounds, treats an absent
bound as unconstrained, a tier with `min = 0, max = None` rejects nothing on
followers, and a candidate fails the band only when `max` is present and
`followers > max` or `min` is present and `followers < min`. -/
theorem claim5_follower_band_inclusive :
    (∀ f, passes_follower_band none (some 0) f = true) ∧
    (∀ mn mx : Nat, mn ≤ mx →
      passes_follower_band (some mx) (some mn) mn = true ∧
      passes_follower_band (some mx) (some mn) mx = true) ∧
    (∀ maxf minf : Option Nat, ∀ f,
      passes_follower_band maxf minf f = false ↔
        ((∃ m, maxf = some m ∧ m < f) ∨ (∃ m, minf = some m ∧ f < m))) := by
  refine ⟨?_, ?_, ?_⟩
  · intro f
    simp [passes_follower_band]
  · intro mn mx hle
    constructor <;> simp [passes_follower_band] <;> omega
  · intro maxf minf f
    cases maxf <;> cases minf <;> simp [passes_follower_band] <;> omega

/-- C5 witness: at the tiny-artist band `{min: 200, max: 1000}` the filter
accepts follower counts exactly `200` and exactly `1000`. -/
theorem claim5_witness :
    passes_follower_band (some 1000) (some 200) 200 = true ∧
    passes_follower_band (some 1000) (some 200) 1000 = true :=
  claim5_follower_band_inclusive.2.1 200 1000 (by decide)

/-- C6: the popularity floor is `70` for `min_followers ≥ 500000`, `55` for
`50000 ≤ min_followers < 500000`, absent otherwise, and any candidate whose
popularity (missing read as 0) is below a set floor is rejected. -/
theorem claim6_popularity_floor :
    (∀ m : Nat, 500000 ≤ m →
      tierMinPopularity (some m) = some FAMOUS_MIN_TRACK_POPULARITY) ∧
    (∀ m : Nat, 50000 ≤ m → m < 500000 →
      tierMinPopularity (some m) = some KNOWN_MIN_TRACK_POPULARITY) ∧
    (∀ m : Nat, m < 50000 → tierMinPopularity (some m) = none) ∧
    tierMinPopularity none = none ∧
    FAMOUS_MIN_TRACK_POPULARITY = 70 ∧
    KNOWN_MIN_TRACK_POPULARITY = 55 ∧
    (∀ (maxf minf : Option Nat) (amap : AMap) (st : GenState) (t : Track) (p : Nat),
      tierMinPopularity minf = some p → t.popularity.getD 0 < p →
      processTrack maxf minf amap st t = st) := by
  refine ⟨?_, ?_, ?_, by simp [tierMinPopularity, mainstream_mode], by decide, by decide, ?_⟩
  · intro m hm
    simp [tierMinPopularity, mainstream_mode, pyTruthyNat,
      show (50000 : Nat) ≤ m by omega, show m ≠ 0 by omega, hm]
  · intro m hm hm'
    simp [tierMinPopularity, mainstream_mode, pyTruthyNat, hm,
      show ¬((500000 : Nat) ≤ m) by omega]
  · intro m hm
    simp [tierMinPopularity, mainstream_mode, pyTruthyNat, show ¬((50000 : Nat) ≤ m) by omega]
  · intro maxf minf amap st t p hp hlt
    cases hacc : accepts maxf minf amap st t with
    | false => exact processTrack_of_reject _ _ _ _ _ hacc
    | true =>
      obtain ⟨-, -, -, -, -, -, -, -, -, -, hpop, -⟩ := accepts_facts _ _ _ _ _ hacc
      rw [hp] at hpop
      simp only [Option.any_some, decide_eq_false_iff_not] at hpop
      exact absurd hlt hpop

/-- C6 witness: for a famous tier (`min_followers = 600000`) the floor is
`70` and a candidate of popularity `10` is rejected with no state change. -/
theorem claim6_witness :
    tierMinPopularity (some 600000) = some FAMOUS_MIN_TRACK_POPULARITY ∧
    processTrack none (some 600000) [] initState lowPopTrack = initState :=
  ⟨claim6_popularity_floor.1 600000 (by decide),
   claim6_popularity_floor.2.2.2.2.2.2 none (some 600000) [] initState lowPopTrack 70
     (by decide) (by decide)⟩

/-- C7: the tier description, after the timestamp clause, is exactly
`"Followers: >200 and <1000. Hebrew % = 30%. Max 3 songs/artist."` for the
band `{min: 200, max: 1000}`; the `">min"` clause is omitted for a `0` or
absent min, the `"<max"` clause is omitted for an absent max, and `" and "`
appears only when both clauses do. -/
theorem claim7_description_format :
    description_tail (some 1000) (some 200) =
      "Followers: >200 and <1000. Hebrew % = 30%. Max 3 songs/artist." ∧
    (∀ (ts : String) (maxf minf : Option Nat),
      playlist_description ts maxf minf =
        "Auto-updated at " ++ ts ++ ". " ++ description_tail maxf minf) ∧
    followers_min_clause none = "" ∧
    followers_min_clause (some 0) = "" ∧
    followers_max_clause none = "" ∧
    (∀ mx, followers_and_clause mx none = "") ∧
    (∀ mn, followers_and_clause none mn = "") ∧
    (∀ mx, followers_and_clause mx (some 0) = "") ∧
    (∀ mn, followers_and_clause (some 0) mn = "") ∧
    (∀ mx mn : Nat,
      description_tail (some (mx + 1)) (some (mn + 1)) =
        "Followers: >" ++ toString (mn + 1) ++ " and <" ++ toString (mx + 1) ++
          ". Hebrew % = 30%. Max 3 songs/artist.") := by
  refine ⟨by decide, fun ts maxf minf => rfl, by decide, by decide, by decide,
    fun mx => rfl, fun mn => by simp [followers_and_clause, pyTruthyNat],
    fun mx => rfl, fun mn => by simp [followers_and_clause, pyTruthyNat], ?_⟩
  intro mx mn
  have h1 : pyTruthyNat (some (mn + 1)) = true := by simp [pyTruthyNat]
  have h2 : pyTruthyNat (some (mx + 1)) = true := by simp [pyTruthyNat]
  simp only [description_tail, followers_min_clause, followers_and_clause,
    followers_max_clause, h1, h2, Bool.and_self, if_true, Option.getD_some,
    String.append_assoc]
  rfl

/-- C8: with the live filter on, a title whose lowercase form contains
`" live"`, `"(live"` or `"session"` is classified bad — in particular
`"Song (Live at Arena)"` is bad and always rejected — and with the remix
filter on, `"remix"`, `" mix"` and `"(mix"` are matched while a bare inner
`"mix"` (e.g. the single word `"Mixtape"`) is not. -/
theorem claim8_bad_version_patterns :
    (∀ name : String,
      (strContains (pyLower name) " live" = true ∨
       strContains (pyLower name) "(live" = true ∨
       strContains (pyLower name) "session" = true) →
      is_bad_version name = true) ∧
    is_bad_version "Song (Live at Arena)" = true ∧
    (∀ (maxf minf : Option Nat) (amap : AMap) (st : GenState) (t : Track),
      trackTitle t = "Song (Live at Arena)" →
      processTrack maxf minf amap st t = st) ∧
    (∀ name : String,
      (strContains (pyLower name) "remix" = true ∨
       strContains (pyLower name) " mix" = true ∨
       strContains (pyLower name) "(mix" = true) →
      is_bad_version name = true) ∧
    is_bad_version "Mixtape" = false := by
  refine ⟨?_, by decide, ?_, ?_, by decide⟩
  · intro name h
    rcases h with h | h | h <;> simp [is_bad_version, FILTER_LIVE, h]
  · intro maxf minf amap st t ht
    cases hacc : accepts maxf minf amap st t with
    | false => exact processTrack_of_reject _ _ _ _ _ hacc
    | true =>
      obtain ⟨-, -, -, hbad, -⟩ := accepts_facts _ _ _ _ _ hacc
      rw [ht] at hbad
      exact absurd hbad (by decide)
  · intro name h
    rcases h with h | h | h <;> simp [is_bad_version, FILTER_LIVE, FILTER_REMIX, h]

/-- C8 witness: `"A Live"` matches the live rule, the concrete live-titled
candidate is rejected with no state change, and `"Club Remix"` matches the
remix rule. -/
theorem claim8_witness :
    is_bad_version "A Live" = true ∧
    processTrack none none [] initState liveTrack = initState ∧
    is_bad_version "Club Remix" = true :=
  ⟨claim8_bad_version_patterns.1 "A Live" (Or.inl (by decide)),
   claim8_bad_version_patterns.2.2.1 none none [] initState liveTrack (by decide),
   claim8_bad_version_patterns.2.2.2.1 "Club Remix" (Or.inl (by decide))⟩

/-- C9: an artist id absent from the enrichment map is evaluated with the
sentinel `{followers: 999999, genres: [], name: ""}` instead of being
rejected; the sentinel follower count fails the band of every tier of
`PLAYLISTS` with a finite max (each such max is ≤ 500000) and passes the
band of the unbounded-max tier. -/
theorem claim9_missing_artist_sentinel :
    (∀ (amap : AMap) (aid : String), amap.lookup aid = none →
      artistObjFor amap aid = missingArtistObj) ∧
    missingArtistObj.followers = 999999 ∧
    (∀ p ∈ PLAYLISTS,
      (p.2.max = none →
        passes_follower_band p.2.max p.2.min missingArtistObj.followers = true) ∧
      (∀ m, p.2.max = some m →
        passes_follower_band p.2.max p.2.min missingArtistObj.followers = false ∧
        m ≤ 500000)) := by
  refine ⟨?_, rfl, ?_⟩
  · intro amap aid h
    simp [artistObjFor, h]
  · intro p hp
    fin_cases hp <;>
      refine ⟨fun hn => ?_, fun m hm => ?_⟩ <;>
      first
        | exact Option.noConfusion hn
        | exact Option.noConfusion hm
        | decide
        | (injection hm with hm'; subst hm'; exact ⟨by decide, by decide⟩)

/-- C9 witness: lookup failure yields the sentinel; the sentinel passes the
famous band and fails the unknown-artists band. -/
theorem claim9_witness :
    artistObjFor [] "x" = missingArtistObj ∧
    passes_follower_band none (some 500000) missingArtistObj.followers = true ∧
    passes_follower_band (some 200) (some 0) missingArtistObj.followers = false :=
  ⟨claim9_missing_artist_sentinel.1 [] "x" rfl,
   (claim9_missing_artist_sentinel.2.2 ("Random Songs (famous artists)", ⟨none, some 500000⟩)
       (by decide)).1 rfl,
   ((claim9_missing_artist_sentinel.2.2 ("Random Songs (unknown artists)", ⟨some 200, some 0⟩)
       (by decide)).2 200 rfl).1⟩

/-- C10: rejection is atomic — when any filter fires, the state (all six
source components, hence the whole record) is unchanged — and an accepted
candidate performs exactly the joint update of `acceptUpdate`: both de-dup
sets, the per-artist count, the regional count when flagged, and exactly
one bucket. -/
theorem claim10_atomic_state (maxf minf : Option Nat) (amap : AMap)
    (st : GenState) (t : Track) :
    (accepts maxf minf amap st t = false →
      processTrack maxf minf amap st t = st) ∧
    (accepts maxf minf amap st t = true →
      processTrack maxf minf amap st t = acceptUpdate amap st t) :=
  ⟨processTrack_of_reject maxf minf amap st t,
   processTrack_of_accept maxf minf amap st t⟩

/-- C10 witness: a falsy-uri candidate leaves the fresh state untouched and
an acceptable candidate performs the joint update. -/
theorem claim10_witness :
    processTrack none none [] initState badUriTrack = initState ∧
    processTrack none none [] initState (mkGlobTrack 0) =
      acceptUpdate [] initState (mkGlobTrack 0) :=
  ⟨(claim10_atomic_state none none [] initState badUriTrack).1 (by decide),
   (claim10_atomic_state none none [] initState (mkGlobTrack 0)).2 (by decide)⟩

/-- C1: every terminating tier run returns exactly `TRACK_COUNT = 50` track
ids, of which exactly `hebrew_needed = 15` were accepted into the Hebrew
bucket and `global_needed = 35` into the other, and the loop exits only
with both bucket lengths at their targets. -/
theorem claim1_quota_exact (shuffle : List String → List String)
    (hsh : ∀ l, List.Perm (shuffle l) l) (maxf minf : Option Nat)
    (batches : List Batch) (out : List String)
    (h : generate_tracks_for_playlist shuffle maxf minf batches = some out) :
    out.length = TRACK_COUNT ∧ hebrew_needed = 15 ∧ global_needed = 35 ∧
    ∃ st, runLoop maxf minf batches initState = some st ∧
      st.hebrew_tracks.length = hebrew_needed ∧
      st.global_tracks.length = global_needed ∧
      loopDone st = true ∧
      out = shuffle (st.hebrew_tracks ++ st.global_tracks) := by
  unfold generate_tracks_for_playlist at h
  obtain ⟨st, hrun, hout⟩ := Option.map_eq_some'.mp h
  obtain ⟨hInv, hdone⟩ := runLoop_some maxf minf batches initState st hrun inv_init
  obtain ⟨hH, hG⟩ := loopDone_lengths st hInv hdone
  have hlen : out.length = st.hebrew_tracks.length + st.global_tracks.length := by
    rw [← hout, (hsh _).length_eq, List.length_append]
  refine ⟨?_, by decide, by decide, st, hrun, hH, hG, hdone, hout.symm⟩
  rw [hlen, hH, hG]
  decide

set_option maxRecDepth 40000 in
/-- C1 witness: a one-batch oracle of 15 acceptable Hebrew and 35 acceptable
non-Hebrew candidates terminates with exactly 50 output ids. -/
theorem claim1_witness : wOut.length = TRACK_COUNT :=
  (claim1_quota_exact id (fun l => List.Perm.refl l) none none [(wTracks, [])] wOut
    (by decide)).1

/-- C2: a terminating run's output has no duplicate track id; a candidate
with a missing (falsy) uri or a uri already in the seen set is rejected
unchanged, and each accepted uri is added to the seen set. -/
theorem claim2_no_duplicate_uris (shuffle : List String → List String)
    (hsh : ∀ l, List.Perm (shuffle l) l) (maxf minf : Option Nat)
    (batches : List Batch) (out : List String)
    (h : generate_tracks_for_playlist shuffle maxf minf batches = some out) :
    out.Nodup ∧
    (∀ (amap : AMap) (st : GenState) (t : Track),
      trackUri t = "" ∨ trackUri t ∈ st.seen_uris →
      processTrack maxf minf amap st t = st) ∧
    (∀ (amap : AMap) (st : GenState) (t : Track),
      accepts maxf minf amap st t = true →
      (processTrack maxf minf amap st t).seen_uris = trackUri t :: st.seen_uris) := by
  refine ⟨?_, ?_, ?_⟩
  · unfold generate_tracks_for_playlist at h
    obtain ⟨st, hrun, hout⟩ := Option.map_eq_some'.mp h
    obtain ⟨hInv, -⟩ := runLoop_some maxf minf batches initState st hrun inv_init
    rw [← hout]
    exact ((hsh _).nodup_iff).mpr hInv.nodup
  · intro amap st t hcond
    cases hacc : accepts maxf minf amap st t with
    | false => exact processTrack_of_reject _ _ _ _ _ hacc
    | true =>
      obtain ⟨hne, hnin, -⟩ := accepts_facts _ _ _ _ _ hacc
      rcases hcond with hc | hc
      · exact absurd hc hne
      · exact absurd hc hnin
  · intro amap st t hacc
    rw [processTrack_of_accept _ _ _ _ _ hacc]
    rfl

set_option maxRecDepth 40000 in
/-- C2 witness: the concrete 50-track run produces pairwise-distinct uris. -/
theorem claim2_witness : wOut.Nodup :=
  (claim2_no_duplicate_uris id (fun l => List.Perm.refl l) none none [(wTracks, [])] wOut
    (by decide)).1

set_option maxRecDepth 40000 in
/-- C3 counterexample: a terminating tier run (both quotas met, 50 accepted
tracks) in which artist id `"xx"` appears, as featured artist, on all 50
accepted tracks — more than `MAX_SONGS_PER_ARTIST = 3` — because the cap of
lines 274-277 counts only `track["artists"][0]`. -/
theorem claim3_counterexample :
    runLoop none none [(cxTracks, [])] initState = some cxSt ∧
    MAX_SONGS_PER_ARTIST < artistAppearCount "xx" cxSt.accepted :=
  ⟨by decide, by decide⟩

/-- C3 (amended): in a terminating tier run no artist id is the primary
artist of more than `MAX_SONGS_PER_ARTIST = 3` accepted tracks, and a
candidate whose primary artist has reached the cap is rejected unchanged.
(The unamended claim — counting any appearance in the artist list — fails;
see the counterexample.) -/
theorem claim3_primary_artist_cap (maxf minf : Option Nat) (batches : List Batch)
    (st : GenState) (h : runLoop maxf minf batches initState = some st) :
    (∀ a : String, primaryCount st.accepted a ≤ MAX_SONGS_PER_ARTIST) ∧
    MAX_SONGS_PER_ARTIST = 3 ∧
    (∀ (amap : AMap) (st' : GenState) (t : Track),
      MAX_SONGS_PER_ARTIST ≤ (st'.artist_counts.lookup (primaryArtistId t)).getD 0 →
      processTrack maxf minf amap st' t = st') := by
  obtain ⟨hInv, -⟩ := runLoop_some maxf minf batches initState st h inv_init
  refine ⟨fun a => ?_, by decide, ?_⟩
  · rw [← hInv.counts a]
    exact hInv.counts_le a
  · intro amap st' t hc
    cases hacc : accepts maxf minf amap st' t with
    | false => exact processTrack_of_reject _ _ _ _ _ hacc
    | true =>
      obtain ⟨-, -, -, -, -, hlt, -⟩ := accepts_facts _ _ _ _ _ hacc
      omega

set_option maxRecDepth 40000 in
/-- C3 witness: in the concrete terminating run, artist `"ah0"` is primary
on at most 3 accepted tracks, and a fourth candidate from a capped artist is
rejected unchanged. -/
theorem claim3_witness :
    primaryCount wSt.accepted "ah0" ≤ MAX_SONGS_PER_ARTIST ∧
    processTrack none none [] capSt capTrack = capSt := by
  have h := claim3_primary_artist_cap none none [(wTracks, [])] wSt (by decide)
  exact ⟨h.1 "ah0", h.2.2 [] capSt capTrack (by decide)⟩

/-- C4: the count of accepted regional-flagged tracks never exceeds
`max_indian = 3` — the final count matches the number of flagged accepted
records and is capped, a flagged candidate arriving at a full cap is
rejected unchanged, each flagged acceptance increments the count by exactly
one, and every step preserves the bound (so it holds throughout the run,
the initial count being 0). -/
theorem claim4_regional_cap (maxf minf : Option Nat) (batches : List Batch)
    (st : GenState) (h : runLoop maxf minf batches initState = some st) :
    flaggedCount st.accepted ≤ max_indian ∧ max_indian = 3 ∧
    st.indian_count = flaggedCount st.accepted ∧
    (∀ (amap : AMap) (st' : GenState) (t : Track),
      is_indian_track t (artistObjFor amap (primaryArtistId t)) = true →
      max_indian ≤ st'.indian_count →
      processTrack maxf minf amap st' t = st') ∧
    (∀ (amap : AMap) (st' : GenState) (t : Track),
      accepts maxf minf amap st' t = true →
      is_indian_track t (artistObjFor amap (primaryArtistId t)) = true →
      (processTrack maxf minf amap st' t).indian_count = st'.indian_count + 1) ∧
    (∀ (amap : AMap) (st' : GenState) (t : Track),
      st'.indian_count ≤ max_indian →
      (processTrack maxf minf amap st' t).indian_count ≤ max_indian) := by
  obtain ⟨hInv, -⟩ := runLoop_some maxf minf batches initState st h inv_init
  refine ⟨hInv.indian_eq ▸ hInv.indian_le, by decide, hInv.indian_eq, ?_, ?_, ?_⟩
  · intro amap st' t hflag hge
    cases hacc : accepts maxf minf amap st' t with
    | false => exact processTrack_of_reject _ _ _ _ _ hacc
    | true =>
      obtain ⟨-, -, -, -, -, -, -, -, -, -, -, hind⟩ := accepts_facts _ _ _ _ _ hacc
      have := hind hflag
      omega
  · intro amap st' t hacc hflag
    rw [processTrack_of_accept _ _ _ _ _ hacc]
    simp [acceptUpdate, hflag]
  · intro amap st' t hle
    cases hacc : accepts maxf minf amap st' t with
    | false => rw [processTrack_of_reject _ _ _ _ _ hacc]; exact hle
    | true =>
      obtain ⟨-, -, -, -, -, -, -, -, -, -, -, hind⟩ := accepts_facts _ _ _ _ _ hacc
      rw [processTrack_of_accept _ _ _ _ _ hacc]
      simp only [acceptUpdate]
      by_cases hf : is_indian_track t (artistObjFor amap (primaryArtistId t)) = true
      · have := hind hf
        simp only [hf, if_true]
        omega
      · simp only [hf, Bool.false_eq_true, if_false]
        omega

set_option maxRecDepth 40000 in
/-- C4 witness: the concrete terminating run has at most 3 regional-flagged
accepted tracks. -/
theorem claim4_witness : flaggedCount wSt.accepted ≤ max_indian :=
  (claim4_regional_cap none none [(wTracks, [])] wSt (by decide)).1

end PlaylistGen
